import Mathlib

/-
Verification of the Blizzard session protocol core
(src/lib/blizzard/session.js) against its specification.

The JavaScript source is shallowly embedded below: JavaScript values
appearing in decoded JSON messages become the inductive type `JValue`
(JavaScript truthiness is the function `truthy`); the event-emitter side
effects of each session method become an explicit list of `SAction`s
returned by the corresponding Lean function; the mutable tables
(`requestCallbacks`, `streams`) become association lists threaded through
the functions; the `sequence` property (a JavaScript number guarded by a
setter) becomes an `Int` transformed by `setSequence`.
-/

/-- Model of the JavaScript values that can appear in a decoded JSON
message or be passed around by the session: the JSON values produced by
JSON.parse, plus `jundefined` for the JavaScript `undefined` produced by a
missing property access, plus `jbuf` for node Buffers (which appear as
the `result` of binary reassembly). Numbers are modelled as integers. -/
inductive JValue where
  | jundefined : JValue
  | jnull : JValue
  | jbool (b : Bool) : JValue
  | jnum (n : Int) : JValue
  | jstr (s : String) : JValue
  | jarr (xs : List JValue) : JValue
  | jobj (fields : List (String × JValue)) : JValue
  | jbuf (bytes : List Nat) : JValue

/-- JavaScript truthiness: `undefined`, `null`, `false`, `0` and the empty
string are falsy; every object (including arrays, empty arrays and
Buffers) is truthy. -/
def truthy : JValue → Bool
  | .jundefined => false
  | .jnull => false
  | .jbool b => b
  | .jnum n => n != 0
  | .jstr s => s != ""
  | .jarr _ => true
  | .jobj _ => true
  | .jbuf _ => true

/-- Look up a field of an object field list; the first binding wins. -/
def lookupField : List (String × JValue) → String → JValue
  | [], _ => .jundefined
  | (k, v) :: rest, key => if k = key then v else lookupField rest key

/-- Property access `v.key` as used by the dispatcher on decoded messages
(`message.method`, `message.params`, `message.error`, `message.result`):
only objects carry such properties; on every other value the access
yields `undefined`. -/
def getProp (v : JValue) (key : String) : JValue :=
  match v with
  | .jobj fields => lookupField fields key
  | _ => .jundefined

/-- The `length` property access performed by `onIncomingJSON`
(`message.length`): arrays and strings expose their element count,
Buffers their byte count, objects whatever `length` field they happen to
contain, and numbers and booleans yield `undefined`. (In JavaScript
`null.length` throws a TypeError; no claim exercises that path.) -/
def getLength : JValue → JValue
  | .jarr xs => .jnum xs.length
  | .jstr s => .jnum s.length
  | .jbuf bs => .jnum bs.length
  | .jobj fields => lookupField fields "length"
  | _ => .jundefined

/-- MAGIC byte of the wire protocol (`BlizzardSession.MAGIC`). -/
def MAGIC : Nat := 89

/-- Frame type `BlizzardSession.TYPE_HANDSHAKE`. -/
def TYPE_HANDSHAKE : Nat := 0

/-- Frame type `BlizzardSession.TYPE_JSON`. -/
def TYPE_JSON : Nat := 1

/-- Frame type `BlizzardSession.TYPE_BUFFER_RESPONSE`. -/
def TYPE_BUFFER_RESPONSE : Nat := 3

/-- Maximum 32-bit unsigned integer (`BlizzardSession.MAX_ID`). -/
def MAX_ID : Nat := 4294967295

/-- Error code `BlizzardSession.ERROR_USER`. -/
def ERROR_USER : Int := -32000

/-- Error code `BlizzardSession.ERROR_PARSE`. -/
def ERROR_PARSE : Int := -32700

/-- Error code `BlizzardSession.ERROR_INVALID`. -/
def ERROR_INVALID : Int := -32600

/-- Error code `BlizzardSession.ERROR_METHOD`. -/
def ERROR_METHOD : Int := -32601

/-- Error code `BlizzardSession.ERROR_INTERNAL`. -/
def ERROR_INTERNAL : Int := -32603

/-- Observable actions of the session: each constructor records one event
emission, outbound transfer, or callback invocation performed by the
embedded JavaScript methods. -/
inductive SAction where
  | fail (id : Nat) (code : Int) (msg : String) : SAction
  | message (id : Nat) (v : JValue) : SAction
  | complete (id : Nat) (error : JValue) (result : JValue) : SAction
  | invoke (name : String) (params : JValue) : SAction
  | invokeCb (cb : Nat) (error : JValue) (result : JValue) : SAction
  | emitError (msg : String) : SAction
  | xferObject (id : Nat) (v : JValue) : SAction
  | ready : SAction
  | incomingJSONBytes (id : Nat) (data : List Nat) : SAction
  | bufferChunk (id : Nat) (data : List Nat) : SAction
  | bufferEnd (id : Nat) : SAction

/-- Embedding of `BlizzardSession.prototype.onIncomingJSON`. The raw
string and JSON.parse are abstracted: the argument is the outcome of the
parse, `none` when JSON.parse threw. On a parse failure the method emits
an ERROR_PARSE failure and returns. Otherwise, when `message.length` is
truthy it emits an ERROR_INVALID failure, and then (with no early return
in the source) it emits the `message` event in every parsed case. -/
def onIncomingJSON (id : Nat) (parsed : Option JValue) : List SAction :=
  match parsed with
  | none => [.fail id ERROR_PARSE "Unable to parse JSON"]
  | some message =>
      (if truthy (getLength message) then
        [.fail id ERROR_INVALID "Expected an object, got an array."]
      else []) ++ [.message id message]

/-- Embedding of `BlizzardSession.prototype.onFailure`: failures at id 0
escalate to a fatal `error` event only for ERROR_INTERNAL and are
otherwise swallowed; failures at a nonzero id are transmitted as a JSON
error object at that id. -/
def onFailure (id : Nat) (code : Int) (error : String) : List SAction :=
  if id = 0 then
    if code = ERROR_INTERNAL then [.emitError error] else []
  else
    [.xferObject id (.jobj [("error",
      .jobj [("code", .jnum code), ("message", .jstr error)])])]

/-- Embedding of `BlizzardSession.prototype.onMessage`. The method table
is abstracted to the list of exposed method names. A truthy
`message.method` routes to the method branch (looking up the handler;
only string names can match the string-keyed table); otherwise a nonzero
id routes to the response branch, which tests `message.error` and
`message.result` for truthiness; otherwise the id-less message is a
protocol failure. `complete id e r` records the source call
`this.callRequestCallback(id, e, r)` (the missing third argument of the
error case is `undefined`). -/
def onMessage (methods : List String) (id : Nat) (message : JValue) :
    List SAction :=
  let params := if truthy (getProp message "params") then
    getProp message "params" else .jarr []
  if truthy (getProp message "method") then
    match getProp message "method" with
    | .jstr name =>
        if methods.contains name then [.invoke name params]
        else [.fail id ERROR_METHOD ("Method " ++ name ++ " not found.")]
    | _ => [.fail id ERROR_METHOD "Method not found."]
  else if id ≠ 0 then
    if truthy (getProp message "error") then
      [.complete id (getProp message "error") .jundefined]
    else if truthy (getProp message "result") then
      [.complete id .jnull (getProp message "result")]
    else
      [.fail id ERROR_INVALID
        "Messages with IDs must contain method, error, or result."]
  else
    [.fail 0 ERROR_INVALID "Messages without IDs must contain method."]

/-- Association-list lookup keyed by a numeric id, modelling a property
read `table[id]` on a JavaScript object used as an integer-keyed map
(`requestCallbacks`, `streams`); absence is `none` (`undefined`). -/
def lookupId {α : Type} : List (Nat × α) → Nat → Option α
  | [], _ => none
  | (k, v) :: rest, id => if k = id then some v else lookupId rest id

/-- Association-list deletion, modelling `delete table[id]`. JavaScript
object keys are unique; removing every binding of the key is the same
operation on the lists our functions build. -/
def removeId {α : Type} : List (Nat × α) → Nat → List (Nat × α)
  | [], _ => []
  | (k, v) :: rest, id =>
      if k = id then removeId rest id else (k, v) :: removeId rest id

/-- Embedding of `BlizzardSession.prototype.callRequestCallback`. The
pending completions table `requestCallbacks` maps each id to an opaque
callback token. Mirroring the source: `assert(id)` fails on id 0 (the
result is `none`); otherwise the entry is looked up and deleted, a
present callback is invoked with `(error, result)`, and an absent
callback emits an ERROR_INTERNAL failure only when `error` is falsy. -/
def callRequestCallback (rcbs : List (Nat × Nat)) (id : Nat)
    (error result : JValue) : Option (List (Nat × Nat) × List SAction) :=
  if id = 0 then none
  else
    let rcbsAfter := removeId rcbs id
    match lookupId rcbs id with
    | some cb => some (rcbsAfter, [.invokeCb cb error result])
    | none =>
        if truthy error then some (rcbsAfter, [])
        else some (rcbsAfter,
          [.fail id ERROR_INTERNAL "Could not find callback for this ID."])

/-- Embedding of `BlizzardSession.prototype.bufferPut`. Each `streams`
entry is the list of chunks accumulated by the node-put object (whose
`buffer()` concatenates them). A first chunk creates the entry; later
chunks are appended. No event is emitted. -/
def bufferPut (streams : List (Nat × List (List Nat))) (id : Nat)
    (buf : List Nat) : List (Nat × List (List Nat)) :=
  match streams with
  | [] => [(id, [buf])]
  | (k, cs) :: rest =>
      if k = id then (k, cs ++ [buf]) :: rest
      else (k, cs) :: bufferPut rest id buf

/-- Embedding of `BlizzardSession.prototype.bufferComplete`. With no
`streams` entry for the id, an ERROR_INVALID failure is emitted and the
state is unchanged; otherwise the entry is deleted and a synthetic
message whose `result` is the concatenated buffer is dispatched at the
id. -/
def bufferComplete (streams : List (Nat × List (List Nat))) (id : Nat) :
    List (Nat × List (List Nat)) × List SAction :=
  match lookupId streams id with
  | none => (streams,
      [.fail id ERROR_INVALID "Got final packet for a stream that does not exist."])
  | some cs => (removeId streams id,
      [.message id (.jobj [("result", .jbuf cs.flatten)])])

/-- Embedding of the `sequence` property setter installed by the
constructor: ids above MAX_ID cannot be represented, so such assignments
store 0; every other assigned number (the setter has no lower-bound
guard) is stored unchanged. -/
def setSequence (v : Int) : Int :=
  if v > (MAX_ID : Int) then 0 else v

/-- Embedding of `BlizzardSession.prototype.nextSequence`: the sequence
is advanced by 2 for an instigator and by 1 otherwise (through the
setter), and the stored value is returned as the new id. -/
def nextSequence (instigator : Bool) (seq : Int) : Int :=
  setSequence (seq + if instigator then 2 else 1)

/-- Embedding of `BlizzardSession.prototype.updateSequence` (the id-sync
tap run on every parsed header): id 0 is ignored, and a parsed id above
the current sequence advances the sequence to id + 1 through the
setter. -/
def updateSequence (seq : Int) (id : Int) : Int :=
  if id = 0 then seq
  else if seq < id then setSequence (id + 1) else seq

/-- The stored sequence of a session that started at 0 and was advanced
by exactly n calls of `nextSequence`; since `nextSequence` returns the
newly stored value, for n ≥ 1 this is also the id returned by the n-th
call. -/
def seqAfter (instigator : Bool) : Nat → Int
  | 0 => 0
  | n + 1 => nextSequence instigator (seqAfter instigator n)

/-- Big-endian encoding of a 32-bit unsigned integer, as performed by
`Buffer.writeUInt32BE`. -/
def u32be (n : Nat) : List Nat :=
  [n / 16777216 % 256, n / 65536 % 256, n / 256 % 256, n % 256]

/-- Big-endian decoding of four bytes into a 32-bit unsigned integer, as
performed by the parser word `word32be`. -/
def readU32be (a b c d : Nat) : Nat :=
  a * 16777216 + b * 65536 + c * 256 + d

/-- Embedding of `BlizzardSession.prototype.xferRaw`: the encoded frame
is the MAGIC byte, the type byte, the id and payload length as 32-bit
big-endian words, and the payload bytes (`xferRawZeroLength` is the
special case of an empty payload, emitting exactly the 10 header
bytes). -/
def xferRaw (type : Nat) (id : Nat) (payload : List Nat) : List Nat :=
  MAGIC :: type :: (u32be id ++ u32be payload.length ++ payload)

/-- The header variables bound by one iteration of the binary parser
loop in `setupBinaryParser` (`vars.type`, `vars.id`, `vars.length`,
`vars.data`; `data` is `[]` when the frame is zero-length and `vars.data`
stays unset). -/
structure FrameVars where
  ftype : Nat
  fid : Nat
  flen : Nat
  fdata : List Nat

/-- Embedding of one iteration of the parser loop in
`setupBinaryParser`: read the magic byte (a mismatch emits a failure and
restarts the parser: `none` here), then the type byte, the id and length
words; a nonzero length then buffers exactly `length` payload bytes
(`none` when the stream does not hold them yet). The remaining bytes of
the stream are returned for the next iteration. -/
def parseFrame (bytes : List Nat) :
    Option (FrameVars × List Nat) :=
  match bytes with
  | m :: t :: a :: b :: c :: d :: e :: f :: g :: h :: rest =>
      if m ≠ MAGIC then none
      else
        let id := readU32be a b c d
        let len := readU32be e f g h
        if len = 0 then some (⟨t, id, 0, []⟩, rest)
        else if rest.length < len then none
        else some (⟨t, id, len, rest.take len⟩, rest.drop len)
  | _ => none

/-- Embedding of the `parseHeader` and `parsePacket` taps of
`setupBinaryParser`: a zero-length frame is a sentinel (buffer
terminator, handshake, or failure), and a payload-carrying frame is
routed by type to the JSON path, the buffer path, or a failure. The
`incomingJSON` payload is kept as raw bytes (the source decodes them as
UTF-8 before `JSON.parse`). -/
def frameEvents (v : FrameVars) : List SAction :=
  if v.flen = 0 then
    if v.ftype = TYPE_BUFFER_RESPONSE then [.bufferEnd v.fid]
    else if v.ftype = TYPE_HANDSHAKE then [.ready]
    else [.fail v.fid ERROR_INVALID "Unexpected 0-length header."]
  else
    if v.ftype = TYPE_JSON then [.incomingJSONBytes v.fid v.fdata]
    else if v.ftype = TYPE_BUFFER_RESPONSE then [.bufferChunk v.fid v.fdata]
    else [.fail v.fid ERROR_INVALID "Unknown packet type."]

/-- Number of callback invocations recorded in an action list. -/
def countInvokes : List SAction → Nat
  | [] => 0
  | .invokeCb _ _ _ :: rest => countInvokes rest + 1
  | _ :: rest => countInvokes rest

/-! Helper lemmas about the association-list operations. -/

/-- Deleting an id from a table makes its lookup miss. -/
theorem lookupId_removeId {α : Type} (l : List (Nat × α)) (id : Nat) :
    lookupId (removeId l id) id = none := by
  induction l with
  | nil => rfl
  | cons p rest ih =>
      obtain ⟨k, v⟩ := p
      by_cases h : k = id <;> simp [removeId, lookupId, h, ih]

/-- Characterisation of `callRequestCallback` for a nonzero id. -/
theorem callRequestCallback_eq (rcbs : List (Nat × Nat)) (id : Nat)
    (error result : JValue) (hid : id ≠ 0) :
    callRequestCallback rcbs id error result =
      some (removeId rcbs id,
        match lookupId rcbs id with
        | some cb => [.invokeCb cb error result]
        | none =>
            if truthy error then []
            else [.fail id ERROR_INTERNAL
              "Could not find callback for this ID."]) := by
  unfold callRequestCallback
  rw [if_neg hid]
  cases lookupId rcbs id with
  | none => by_cases he : truthy error <;> simp [he]
  | some cb => rfl

/-- A `bufferPut` makes the lookup of its id return the previous chunk
list (empty when the entry was absent) extended by the new chunk. -/
theorem lookupId_bufferPut (s : List (Nat × List (List Nat))) (id : Nat)
    (buf : List Nat) :
    lookupId (bufferPut s id buf) id =
      some ((lookupId s id).getD [] ++ [buf]) := by
  induction s with
  | nil => simp [bufferPut, lookupId]
  | cons p rest ih =>
      obtain ⟨k, cs⟩ := p
      by_cases h : k = id <;> simp [bufferPut, lookupId, h, ih]

/-- Folding `bufferPut` over a chunk list appends the chunks to an
existing entry. -/
theorem lookupId_foldl_bufferPut (id : Nat) (cs : List (List Nat)) :
    ∀ (s : List (Nat × List (List Nat))) (acc : List (List Nat)),
      lookupId s id = some acc →
      lookupId (cs.foldl (fun t c => bufferPut t id c) s) id =
        some (acc ++ cs) := by
  induction cs with
  | nil => intro s acc h; simpa using h
  | cons c rest ih =>
      intro s acc h
      have h1 : lookupId (bufferPut s id c) id = some (acc ++ [c]) := by
        rw [lookupId_bufferPut, h]
        rfl
      have h2 := ih (bufferPut s id c) (acc ++ [c]) h1
      simpa [List.append_assoc] using h2

/-! Claim theorems. -/

/-- C4: the completion registered for an id is invoked at most once:
when complete runs for that id, the table entry is removed, at most one
callback invocation happens, and a second complete at the same id
invokes no callback at all. -/
theorem c4_completion_at_most_once (rcbs : List (Nat × Nat)) (id : Nat)
    (e r e2 r2 : JValue) (p1 p2 : List (Nat × Nat) × List SAction)
    (hid : id ≠ 0)
    (h1 : callRequestCallback rcbs id e r = some p1)
    (h2 : callRequestCallback p1.1 id e2 r2 = some p2) :
    lookupId p1.1 id = none ∧ countInvokes p1.2 ≤ 1 ∧
      countInvokes p2.2 = 0 := by
  obtain ⟨rcbs1, evs1⟩ := p1
  obtain ⟨rcbs2, evs2⟩ := p2
  rw [callRequestCallback_eq rcbs id e r hid, Option.some.injEq,
    Prod.mk.injEq] at h1
  obtain ⟨hA, hB⟩ := h1
  subst hA
  subst hB
  rw [callRequestCallback_eq _ id e2 r2 hid] at h2
  simp only [lookupId_removeId, Option.some.injEq, Prod.mk.injEq] at h2
  obtain ⟨hC, hD⟩ := h2
  subst hD
  refine ⟨lookupId_removeId rcbs id, ?_, ?_⟩
  · cases hc : lookupId rcbs id with
    | none => by_cases he : truthy e <;> simp [hc, he, countInvokes]
    | some cb => simp [hc, countInvokes]
  · by_cases he2 : truthy e2 <;> simp [he2, countInvokes]

/-- Witness for C4 at a concrete table, id and messages. -/
theorem c4_completion_at_most_once_witness :
    lookupId ([] : List (Nat × Nat)) 1 = none ∧
    countInvokes [SAction.invokeCb 7 JValue.jnull (JValue.jnum 3)] ≤ 1 ∧
    countInvokes
      [SAction.fail 1 ERROR_INTERNAL "Could not find callback for this ID."]
      = 0 :=
  c4_completion_at_most_once [(1, 7)] 1 JValue.jnull (JValue.jnum 3)
    JValue.jnull JValue.jnull
    ([], [SAction.invokeCb 7 JValue.jnull (JValue.jnum 3)])
    ([], [SAction.fail 1 ERROR_INTERNAL "Could not find callback for this ID."])
    (by decide) rfl rfl

/-- C5: when complete runs for an id with no table entry, a truthy error
argument produces no emission at all (no failure event, no outbound
frame), while a falsy error argument emits an ERROR_INTERNAL failure for
that id. -/
theorem c5_unknown_id_policy (rcbs : List (Nat × Nat)) (id : Nat)
    (e r : JValue) (hid : id ≠ 0) (habs : lookupId rcbs id = none) :
    (truthy e = true →
      callRequestCallback rcbs id e r = some (removeId rcbs id, [])) ∧
    (truthy e = false →
      callRequestCallback rcbs id e r = some (removeId rcbs id,
        [.fail id ERROR_INTERNAL "Could not find callback for this ID."])) := by
  constructor <;> intro he <;>
    rw [callRequestCallback_eq rcbs id e r hid] <;> simp [habs, he]

/-- Witness for C5 at a concrete table and id, in both error modes. -/
theorem c5_unknown_id_policy_witness :
    callRequestCallback [] 1 (.jobj [("code", .jnum 1)]) JValue.jundefined =
      some ([], []) ∧
    callRequestCallback [] 1 JValue.jnull JValue.jundefined =
      some ([],
        [.fail 1 ERROR_INTERNAL "Could not find callback for this ID."]) :=
  ⟨(c5_unknown_id_policy [] 1 (.jobj [("code", .jnum 1)]) JValue.jundefined
      (by decide) rfl).1 rfl,
   (c5_unknown_id_policy [] 1 JValue.jnull JValue.jundefined
      (by decide) rfl).2 rfl⟩

/-- C6: a failure event at id 0 with code ERROR_INTERNAL escalates as a
fatal session error; a failure at id 0 with any other code is swallowed
and produces no outbound frame; a failure at a nonzero id transmits a
JSON error object carrying the code and message at that id. -/
theorem c6_failure_funnel (id : Nat) (code : Int) (error : String) :
    (id = 0 → code = ERROR_INTERNAL →
      onFailure id code error = [.emitError error]) ∧
    (id = 0 → code ≠ ERROR_INTERNAL → onFailure id code error = []) ∧
    (id ≠ 0 → onFailure id code error =
      [.xferObject id (.jobj [("error",
        .jobj [("code", .jnum code), ("message", .jstr error)])])]) := by
  refine ⟨fun h1 h2 => ?_, fun h1 h2 => ?_, fun h1 => ?_⟩ <;>
    simp [onFailure, *]

/-- Witness for C6 in all three regimes at concrete inputs. -/
theorem c6_failure_funnel_witness :
    onFailure 0 ERROR_INTERNAL "boom" = [.emitError "boom"] ∧
    onFailure 0 ERROR_INVALID "noise" = [] ∧
    onFailure 9 ERROR_METHOD "nope" =
      [.xferObject 9 (.jobj [("error",
        .jobj [("code", .jnum ERROR_METHOD), ("message", .jstr "nope")])])] :=
  ⟨(c6_failure_funnel 0 ERROR_INTERNAL "boom").1 rfl rfl,
   (c6_failure_funnel 0 ERROR_INVALID "noise").2.1 rfl (by decide),
   (c6_failure_funnel 9 ERROR_METHOD "nope").2.2 (by decide)⟩

/-- C8: with the sequence at MAX_ID, a non-instigator call of
nextSequence returns 0 and the immediately following call returns 1; an
instigator call at MAX_ID returns 0. -/
theorem c8_rollover :
    nextSequence false ((MAX_ID : Nat) : Int) = 0 ∧
    nextSequence false (nextSequence false ((MAX_ID : Nat) : Int)) = 1 ∧
    nextSequence true ((MAX_ID : Nat) : Int) = 0 := by
  refine ⟨?_, ?_, ?_⟩ <;> decide

/-- C1 counterexample: a frame whose payload parses to the nonempty
top-level array containing 1 does get the ERROR_INVALID failure, but the
decoded message is still dispatched onward to the message handler (the
source has no early return); and a frame whose payload parses to the
empty top-level array is not rejected at all (its length is falsy). -/
theorem c1_counterexample :
    SAction.message 5 (.jarr [.jnum 1]) ∈
      onIncomingJSON 5 (some (.jarr [.jnum 1])) ∧
    onIncomingJSON 5 (some (.jarr [])) = [.message 5 (.jarr [])] := by
  constructor
  · simp [onIncomingJSON, getLength, truthy]
  · rfl

/-- C1 amended: for every incoming JSON frame whose payload parses to a
top-level array of nonzero length, the session emits a failure with code
ERROR_INVALID at the frame id, and the decoded message is nonetheless
still dispatched onward to the message handler; an empty top-level array
is dispatched with no failure. -/
theorem c1_amended_array_handling (id : Nat) (xs : List JValue)
    (h : xs ≠ []) :
    onIncomingJSON id (some (.jarr xs)) =
      [.fail id ERROR_INVALID "Expected an object, got an array.",
       .message id (.jarr xs)] := by
  have hlen : (xs.length : Int) ≠ 0 := by
    have : xs.length ≠ 0 := fun h0 => h (List.length_eq_zero.mp h0)
    exact_mod_cast this
  simp [onIncomingJSON, getLength, truthy, hlen]

/-- Witness for the amended C1 at a concrete array. -/
theorem c1_amended_array_handling_witness :
    onIncomingJSON 7 (some (.jarr [.jnull])) =
      [.fail 7 ERROR_INVALID "Expected an object, got an array.",
       .message 7 (.jarr [.jnull])] :=
  c1_amended_array_handling 7 [.jnull] (List.cons_ne_nil _ _)

/-- C2 counterexample: a message at a nonzero id whose result field is
present with the value 0 is not completed; the response branch tests the
field for truthiness, so the dispatcher emits the ERROR_INVALID failure
instead of calling complete(id, null, 0). -/
theorem c2_counterexample :
    onMessage [] 1 (.jobj [("result", .jnum 0)]) =
      [.fail 1 ERROR_INVALID
        "Messages with IDs must contain method, error, or result."] ∧
    SAction.complete 1 .jnull (.jnum 0) ∉
      onMessage [] 1 (.jobj [("result", .jnum 0)]) := by
  refine ⟨rfl, ?_⟩
  intro hmem
  rw [show onMessage [] 1 (.jobj [("result", .jnum 0)]) =
    [.fail 1 ERROR_INVALID
      "Messages with IDs must contain method, error, or result."] from rfl]
    at hmem
  simp at hmem

/-- C2 amended: for a decoded message at a nonzero id with a falsy
method field, a truthy error field routes to complete(id, error,
undefined); a falsy error field with a truthy result field routes to
complete(id, null, result); and when both are falsy (which includes a
result field present with value 0, false, null or the empty string) the
dispatcher emits the ERROR_INVALID failure. -/
theorem c2_amended_response_dispatch (methods : List String) (id : Nat)
    (msg : JValue) (hid : id ≠ 0)
    (hm : truthy (getProp msg "method") = false) :
    (truthy (getProp msg "error") = true →
      onMessage methods id msg =
        [.complete id (getProp msg "error") .jundefined]) ∧
    (truthy (getProp msg "error") = false →
      truthy (getProp msg "result") = true →
      onMessage methods id msg =
        [.complete id .jnull (getProp msg "result")]) ∧
    (truthy (getProp msg "error") = false →
      truthy (getProp msg "result") = false →
      onMessage methods id msg =
        [.fail id ERROR_INVALID
          "Messages with IDs must contain method, error, or result."]) := by
  refine ⟨fun he => ?_, fun he hr => ?_, fun he hr => ?_⟩ <;>
    simp [onMessage, hm, hid, *]

/-- Witness for the amended C2 on concrete error, result, and empty
response messages at id 1. -/
theorem c2_amended_response_dispatch_witness :
    onMessage [] 1 (.jobj [("error", .jobj [("code", .jnum 5)])]) =
      [.complete 1 (.jobj [("code", .jnum 5)]) .jundefined] ∧
    onMessage [] 1 (.jobj [("result", .jnum 3)]) =
      [.complete 1 .jnull (.jnum 3)] ∧
    onMessage [] 1 (.jobj []) =
      [.fail 1 ERROR_INVALID
        "Messages with IDs must contain method, error, or result."] :=
  ⟨(c2_amended_response_dispatch [] 1
      (.jobj [("error", .jobj [("code", .jnum 5)])]) (by decide) rfl).1 rfl,
   (c2_amended_response_dispatch [] 1
      (.jobj [("result", .jnum 3)]) (by decide) rfl).2.1 rfl rfl,
   (c2_amended_response_dispatch [] 1 (.jobj []) (by decide) rfl).2.2
      rfl rfl⟩

/-- C3 counterexample: for a non-instigator session started at 0 and
advanced only by nextSequence, the id returned by the second call is 2,
which is even, refuting that every non-instigator id is odd. -/
theorem c3_counterexample :
    seqAfter false 2 = 2 ∧ seqAfter false 2 % 2 = 0 := by
  refine ⟨?_, ?_⟩ <;> decide

/-- C3 amended: for a session whose sequence starts at 0 and is advanced
only by nextSequence, every instigator id is even, while a
non-instigator sequence after n steps is n modulo 2 to the 32 (its first
id is odd, but its ids alternate parity rather than staying odd). -/
theorem c3_amended_parity :
    (∀ n : Nat, seqAfter true n % 2 = 0) ∧
    (∀ n : Nat, seqAfter false n = (n : Int) % 4294967296) := by
  constructor
  · intro n
    induction n with
    | zero => decide
    | succ k ih =>
        have hstep : seqAfter true (k + 1) =
            setSequence (seqAfter true k + 2) := rfl
        rw [hstep]
        unfold setSequence MAX_ID
        split
        · decide
        · omega
  · intro n
    induction n with
    | zero => decide
    | succ k ih =>
        have hstep : seqAfter false (k + 1) =
            setSequence (seqAfter false k + 1) := rfl
        rw [hstep, ih]
        unfold setSequence MAX_ID
        push_cast
        split <;> omega

/-- C10 counterexample: the sequence setter does not clamp negative
numbers, so assigning -1 stores -1, which lies outside the claimed
range. -/
theorem c10_counterexample :
    setSequence (-1) = -1 ∧ setSequence (-1) < 0 := by
  refine ⟨?_, ?_⟩ <;> decide

/-- C10 amended: any assignment of a value greater than MAX_ID stores 0;
any assignment of a nonnegative value keeps the stored sequence in the
range from 0 to MAX_ID; and the writes performed by nextSequence and by
updateSequence on a wire id preserve that range (the setter has no guard
against negative assigned values). -/
theorem c10_amended_sequence_range :
    (∀ v : Int, ((MAX_ID : Nat) : Int) < v → setSequence v = 0) ∧
    (∀ v : Int, 0 ≤ v →
      0 ≤ setSequence v ∧ setSequence v ≤ ((MAX_ID : Nat) : Int)) ∧
    (∀ (b : Bool) (s : Int), 0 ≤ s → s ≤ ((MAX_ID : Nat) : Int) →
      0 ≤ nextSequence b s ∧ nextSequence b s ≤ ((MAX_ID : Nat) : Int)) ∧
    (∀ s i : Int, 0 ≤ s → s ≤ ((MAX_ID : Nat) : Int) →
      0 ≤ i → i ≤ ((MAX_ID : Nat) : Int) →
      0 ≤ updateSequence s i ∧ updateSequence s i ≤ ((MAX_ID : Nat) : Int)) := by
  refine ⟨?_, ?_, ?_, ?_⟩
  · intro v hv
    unfold setSequence
    rw [if_pos hv]
  · intro v hv
    unfold setSequence MAX_ID
    split <;> omega
  · intro b s h1 h2
    cases b <;>
      · unfold nextSequence setSequence MAX_ID
        unfold MAX_ID at h2
        simp only [Bool.false_eq_true, if_false, if_true]
        split <;> omega
  · intro s i h1 h2 h3 h4
    unfold updateSequence setSequence MAX_ID
    unfold MAX_ID at h2 h4
    split
    · omega
    · split
      · split <;> omega
      · omega

/-- Witness for the amended C10 at concrete assigned values. -/
theorem c10_amended_sequence_range_witness :
    setSequence 4294967296 = 0 ∧
    (0 ≤ setSequence 5 ∧ setSequence 5 ≤ ((MAX_ID : Nat) : Int)) ∧
    (0 ≤ nextSequence true 4 ∧ nextSequence true 4 ≤ ((MAX_ID : Nat) : Int)) ∧
    (0 ≤ updateSequence 3 10 ∧ updateSequence 3 10 ≤ ((MAX_ID : Nat) : Int)) :=
  ⟨(c10_amended_sequence_range).1 4294967296 (by decide),
   (c10_amended_sequence_range).2.1 5 (by decide),
   (c10_amended_sequence_range).2.2.1 true 4 (by decide) (by decide),
   (c10_amended_sequence_range).2.2.2 3 10 (by decide) (by decide)
     (by decide) (by decide)⟩

/-- C7: chunks accumulated for an id by bufferPut and closed by one
bufferComplete dispatch exactly one synthetic message whose result is
the concatenation of the chunks, and the streams entry for the id is
removed; a bufferComplete with no streams entry for the id emits an
ERROR_INVALID failure instead and dispatches nothing. -/
theorem c7_binary_reassembly (streams : List (Nat × List (List Nat)))
    (id : Nat) (chunks : List (List Nat))
    (h0 : lookupId streams id = none) (hne : chunks ≠ []) :
    (bufferComplete (chunks.foldl (fun t c => bufferPut t id c) streams)
        id).2 =
      [.message id (.jobj [("result", .jbuf chunks.flatten)])] ∧
    lookupId
      (bufferComplete (chunks.foldl (fun t c => bufferPut t id c) streams)
        id).1 id = none ∧
    (bufferComplete streams id).2 =
      [.fail id ERROR_INVALID
        "Got final packet for a stream that does not exist."] := by
  obtain ⟨c, cs, rfl⟩ : ∃ c cs, chunks = c :: cs := by
    cases chunks with
    | nil => exact absurd rfl hne
    | cons a b => exact ⟨a, b, rfl⟩
  have h1 : lookupId (bufferPut streams id c) id = some [c] := by
    rw [lookupId_bufferPut, h0]
    rfl
  have hfold :
      lookupId (cs.foldl (fun t c => bufferPut t id c)
        (bufferPut streams id c)) id = some (c :: cs) := by
    have h2 := lookupId_foldl_bufferPut id cs (bufferPut streams id c) [c] h1
    simpa using h2
  refine ⟨?_, ?_, ?_⟩
  · simp [bufferComplete, hfold]
  · simp [bufferComplete, hfold, lookupId_removeId]
  · simp [bufferComplete, h0]

/-- Witness for C7 at a concrete stream of two chunks for id 3, together
with the unknown-stream terminator case. -/
theorem c7_binary_reassembly_witness :
    (bufferComplete
        ([[1, 2], [3]].foldl (fun t c => bufferPut t 3 c) []) 3).2 =
      [.message 3 (.jobj [("result", .jbuf [1, 2, 3])])] ∧
    lookupId
      (bufferComplete
        ([[1, 2], [3]].foldl (fun t c => bufferPut t 3 c) []) 3).1 3 = none ∧
    (bufferComplete [] 3).2 =
      [.fail 3 ERROR_INVALID
        "Got final packet for a stream that does not exist."] :=
  c7_binary_reassembly [] 3 [[1, 2], [3]] rfl (List.cons_ne_nil _ _)

/-- Decoding a big-endian 32-bit word recovers the encoded value. -/
theorem readU32be_u32be (n : Nat) (h : n ≤ MAX_ID) :
    readU32be (n / 16777216 % 256) (n / 65536 % 256) (n / 256 % 256)
      (n % 256) = n := by
  unfold readU32be
  unfold MAX_ID at h
  omega

/-- C9: for every type in 0, 1, 3, every 32-bit id and every payload,
one parser iteration over the bytes produced by the frame encoder binds
back exactly the original type, id and payload (with the whole frame
consumed). -/
theorem c9_frame_roundtrip (t id : Nat) (payload : List Nat)
    (_ht : t = TYPE_HANDSHAKE ∨ t = TYPE_JSON ∨ t = TYPE_BUFFER_RESPONSE)
    (hid : id ≤ MAX_ID) (hlen : payload.length ≤ MAX_ID) :
    parseFrame (xferRaw t id payload) =
      some (⟨t, id, payload.length, payload⟩, []) := by
  have hmagic : ¬ (MAGIC ≠ MAGIC) := fun hc => hc rfl
  by_cases hL : payload.length = 0
  · have hnil : payload = [] := List.length_eq_zero.mp hL
    subst hnil
    unfold MAX_ID at hid
    simp [xferRaw, u32be, parseFrame, readU32be]
    omega
  · simp only [xferRaw, u32be, List.cons_append, List.nil_append,
      parseFrame, readU32be_u32be id hid,
      readU32be_u32be payload.length hlen]
    rw [if_neg hmagic, if_neg hL, if_neg (lt_irrefl payload.length),
      List.take_length, List.drop_length]

/-- Witness for C9 at a concrete JSON frame. -/
theorem c9_frame_roundtrip_witness :
    parseFrame (xferRaw 1 2 [200]) = some (⟨1, 2, 1, [200]⟩, []) :=
  c9_frame_roundtrip 1 2 [200] (Or.inr (Or.inl rfl)) (by decide)
    (by decide)
